import Mathlib

/-!
# Verification of the podtext in-browser search component (`docs/search.js`)

Shallow embedding of the search widget: the index loader, the input handler
(minimum-length gate, case-insensitive substring filter, 10-result cap), the
renderer (`displayResults`), and the outside-click dismissal handler.

JavaScript strings are modelled as Lean `String`; JS object fields that may be
absent (`undefined`) are modelled as `Option String`; a thrown `TypeError`
(from calling `.toLowerCase()` on `undefined`) is modelled with `Except`.
-/

/-- A JavaScript runtime error surfacing in the modelled code.  The only one
reachable here is the `TypeError` thrown by `undefined.toLowerCase()`. -/
inductive JsError where
  | typeError
deriving DecidableEq, Repr

/-- One entry of `search.json` as a JS object: each field is either a string
or absent (`undefined`).  The build tool always emits all four fields, but the
engine does not validate this. -/
structure SearchDocument where
  title : Option String
  text  : Option String
  url   : Option String
  feed  : Option String
deriving DecidableEq, Repr

/-- JS `String.prototype.toLowerCase()`: lowercase each character.  (Defined
by a direct map over the character list so that it evaluates by `decide`;
extensionally it is `String.toLower`.) -/
def jsToLower (s : String) : String :=
  String.mk (s.data.map Char.toLower)

/-- `pat.isPrefixOf s`-based substring test over character lists; the model of
`String.prototype.includes`: `listContains pat s = true` iff `pat` occurs as a
contiguous run inside `s` (the empty pattern always occurs). -/
def listContains (pat : List Char) : List Char → Bool
  | [] => pat.isEmpty
  | c :: rest => pat.isPrefixOf (c :: rest) || listContains pat rest

/-- JS `s.includes(pat)`: substring containment. -/
def strIncludes (s pat : String) : Bool :=
  listContains pat.toList s.toList

/-- The filter callback of the input listener:
`item.title.toLowerCase().includes(query) || item.text.toLowerCase().includes(query)`.
Accessing `.toLowerCase` on an absent field throws a `TypeError`; `||`
short-circuits, so a matching title never touches `text`. -/
def matchesItem (query : String) (item : SearchDocument) : Except JsError Bool :=
  match item.title with
  | none => Except.error JsError.typeError
  | some t =>
    if strIncludes (jsToLower t) query then Except.ok true
    else
      match item.text with
      | none => Except.error JsError.typeError
      | some tx => Except.ok (strIncludes (jsToLower tx) query)

/-- JS `Array.prototype.filter` with a callback that may throw: elements are
tested left to right and the first exception aborts the whole call. -/
def filterE (p : α → Except ε Bool) : List α → Except ε (List α)
  | [] => Except.ok []
  | x :: xs => do
    let b ← p x
    let rest ← filterE p xs
    pure (if b then x :: rest else rest)

/-- The pure match predicate on a well-formed document (both `title` and
`text` present); absent fields default to the empty string only so that the
function is total — `matchesItem` is the authoritative, throwing version. -/
def docMatches (query : String) (d : SearchDocument) : Bool :=
  strIncludes (jsToLower (d.title.getD "")) query ||
    strIncludes (jsToLower (d.text.getD "")) query

/-- `searchIndex.filter(item => ...).slice(0, 10)` for an already-lowercased
query: the at-most-10 matching documents, or the `TypeError` the filter threw. -/
def computeResults (searchIndex : List SearchDocument) (query : String) :
    Except JsError (List SearchDocument) :=
  (filterE (matchesItem query) searchIndex).map (fun l => l.take 10)

/-- One rendered child of the results container `div`. -/
inductive RNode where
  /-- `<div class="no-results">No results found</div>` -/
  | noResults : RNode
  /-- a `div.search-result-item` whose `innerHTML` is the carried string -/
  | resultItem : String → RNode
deriving DecidableEq, Repr

/-- The observable state of the result region: its rendered children and
whether the `hidden` class is absent. -/
structure UIState where
  content : List RNode
  visible : Bool
deriving DecidableEq, Repr

/-- JS template-literal interpolation of a field: `undefined` prints as the
literal text `undefined`. -/
def jsTemplate (o : Option String) : String :=
  o.getD "undefined"

/-- The `innerHTML` assigned to one result item:
`<a href="${item.url}">${item.title}</a><span class="search-feed">${item.feed}</span>`,
interpolated verbatim with no HTML escaping. -/
def renderItem (item : SearchDocument) : String :=
  "<a href=\"" ++ jsTemplate item.url ++ "\">" ++ jsTemplate item.title ++
    "</a><span class=\"search-feed\">" ++ jsTemplate item.feed ++ "</span>"

/-- `displayResults(results)`: clears the container, renders either the single
no-results placeholder or one item per document in order, then removes the
`hidden` class. -/
def displayResults (results : List SearchDocument) : UIState :=
  { content :=
      if results.isEmpty then [RNode.noResults]
      else results.map (fun item => RNode.resultItem (renderItem item)),
    visible := true }

/-- The `input` event listener: lowercase the raw value; below two characters
hide and clear the region; otherwise filter, cap at 10 and display.  A
`TypeError` thrown by the filter propagates before any DOM write, leaving the
region in its prior state `st`. -/
def onInput (searchIndex : List SearchDocument) (raw : String) (st : UIState) :
    Except JsError UIState :=
  let query := jsToLower raw
  if query.length < 2 then
    Except.ok { content := [], visible := false }
  else
    (computeResults searchIndex query).map displayResults

/-- Where a document-level click landed, as decided by the two
`Node.contains` tests of the click listener. -/
inductive ClickTarget where
  | inputControl
  | insideResults
  | elsewhere
deriving DecidableEq, Repr

/-- The document `click` listener: a click outside both the input control and
the result region adds the `hidden` class; any other click leaves the region
untouched. -/
def onDocumentClick (t : ClickTarget) (st : UIState) : UIState :=
  match t with
  | ClickTarget.elsewhere => { st with visible := false }
  | _ => st

/-- The page-session state: the write-once in-memory index plus the region. -/
structure PageState where
  searchIndex : List SearchDocument
  region : UIState
deriving DecidableEq, Repr

/-- State at `DOMContentLoaded`: `let searchIndex = []`, region empty and
hidden. -/
def initialPage : PageState :=
  { searchIndex := [], region := { content := [], visible := false } }

/-- Outcome of the single `fetch('search.json')`/`response.json()` chain. -/
inductive LoadOutcome where
  | success (data : List SearchDocument)
  | failure
deriving DecidableEq, Repr

/-- The load chain: on success `searchIndex = data`; on failure
`console.error("Failed to load search index", err)` and nothing else.  The
returned list is the console log emitted by this step. -/
def handleLoad (outcome : LoadOutcome) (ps : PageState) :
    PageState × List String :=
  match outcome with
  | LoadOutcome.success data => ({ ps with searchIndex := data }, [])
  | LoadOutcome.failure => (ps, ["Failed to load search index"])

/-- The input listener acting on the whole page state. -/
def inputEvent (raw : String) (ps : PageState) : Except JsError PageState :=
  (onInput ps.searchIndex raw ps.region).map (fun r => { ps with region := r })

/-- The click listener acting on the whole page state. -/
def clickEvent (t : ClickTarget) (ps : PageState) : PageState :=
  { ps with region := onDocumentClick t ps.region }

/-! ## Well-formedness and the pure view of the filter -/

/-- A document entry carrying both fields the filter callback dereferences. -/
def wellFormed (d : SearchDocument) : Bool :=
  d.title.isSome && d.text.isSome

/-- Number of documents strictly before position `i` of the index that match
the query. -/
def countEarlierMatches (query : String) (I : List SearchDocument) (i : Nat) : Nat :=
  ((I.take i).filter (docMatches query)).length

theorem matchesItem_eq_ok (query : String) (d : SearchDocument)
    (h : wellFormed d = true) :
    matchesItem query d = Except.ok (docMatches query d) := by
  rw [wellFormed, Bool.and_eq_true] at h
  obtain ⟨t, ht⟩ := Option.isSome_iff_exists.mp h.1
  obtain ⟨tx, htx⟩ := Option.isSome_iff_exists.mp h.2
  simp only [matchesItem, docMatches, ht, htx, Option.getD_some]
  by_cases hb : strIncludes (jsToLower t) query = true
  · simp [hb]
  · simp [hb]

theorem filterE_eq_ok (query : String) (I : List SearchDocument)
    (h : ∀ d ∈ I, wellFormed d = true) :
    filterE (matchesItem query) I = Except.ok (I.filter (docMatches query)) := by
  induction I with
  | nil => rfl
  | cons d rest ih =>
    have hd := h d (List.mem_cons_self d rest)
    have hrest : ∀ x ∈ rest, wellFormed x = true :=
      fun x hx => h x (List.mem_cons_of_mem d hx)
    simp only [filterE, matchesItem_eq_ok query d hd, ih hrest, List.filter_cons]
    cases hm : docMatches query d <;>
      simp [hm, Bind.bind, Except.bind, Pure.pure, Except.pure]

theorem computeResults_eq_ok (query : String) (I : List SearchDocument)
    (h : ∀ d ∈ I, wellFormed d = true) :
    computeResults I query =
      Except.ok ((I.filter (docMatches query)).take 10) := by
  rw [computeResults, filterE_eq_ok query I h]
  rfl

/-- If an element at position `i` satisfies `p` yet is missing from the first
`n` elements of `l.filter p`, then at least `n` earlier elements of `l`
already satisfy `p`. -/
theorem get_mem_take_filter_or (p : α → Bool) (l : List α) (n : Nat)
    (i : Fin l.length) (hp : p (l.get i) = true) :
    l.get i ∈ (l.filter p).take n ∨ n ≤ ((l.take i).filter p).length := by
  by_cases hc : n ≤ ((l.take (i : Nat)).filter p).length
  · exact Or.inr hc
  · left
    have hlt : ((l.take (i : Nat)).filter p).length < n := Nat.lt_of_not_le hc
    have hsplit : l = l.take (i : Nat) ++ l.get i :: l.drop ((i : Nat) + 1) := by
      conv_lhs => rw [← List.take_append_drop (i : Nat) l]
      rw [List.drop_eq_getElem_cons i.isLt]
      rfl
    set A := (l.take (i : Nat)).filter p with hA
    have hfil : l.filter p = A ++ l.get i :: (l.drop ((i : Nat) + 1)).filter p := by
      conv_lhs => rw [hsplit]
      rw [List.filter_append, List.filter_cons, hp]
      simp
    rw [hfil, List.take_append_eq_append_take]
    obtain ⟨m, hm⟩ : ∃ m, n - A.length = m + 1 :=
      ⟨n - A.length - 1, by omega⟩
    rw [hm, List.take_succ_cons]
    exact List.mem_append_right _ (List.mem_cons_self _ _)

/-- Equality of `Except` values is decidable when it is on both sides; used
to evaluate the modelled operations on concrete inputs. -/
instance exceptDecEq {ε α : Type _} [DecidableEq ε] [DecidableEq α] :
    DecidableEq (Except ε α) := fun x y =>
  match x, y with
  | Except.ok a, Except.ok b =>
    if h : a = b then isTrue (h ▸ rfl)
    else isFalse (fun hc => h (Except.ok.inj hc))
  | Except.ok _, Except.error _ => isFalse (fun hc => Except.noConfusion hc)
  | Except.error _, Except.ok _ => isFalse (fun hc => Except.noConfusion hc)
  | Except.error e, Except.error f =>
    if h : e = f then isTrue (h ▸ rfl)
    else isFalse (fun hc => h (Except.error.inj hc))

/-! ## C1: filter, cap and order of the query result -/

/-- C1 exactly as written: over an index of documents with string `title` and
`text` fields and a query of length at least 2, the query returns the first
at-most-10 matching documents; in particular a matching document may be
omitted only when MORE THAN 10 earlier documents also match. -/
def c1ClaimStatement (I : List SearchDocument) (r : String) : Prop :=
  (∀ d ∈ I, wellFormed d = true) → 2 ≤ (jsToLower r).length →
    ∃ res, computeResults I (jsToLower r) = Except.ok res ∧
      (∀ d ∈ res, docMatches (jsToLower r) d = true) ∧
      (∀ i : Fin I.length, docMatches (jsToLower r) (I.get i) = true →
        I.get i ∈ res ∨ 10 < countEarlierMatches (jsToLower r) I i) ∧
      res.Sublist I

/-- A document whose text matches the query "aa". -/
def cexDoc (n : String) : SearchDocument :=
  { title := some n, text := some "aa", url := some "/u", feed := some "F" }

/-- Eleven pairwise-distinct documents that all match the query "aa". -/
def cexIndex : List SearchDocument :=
  [cexDoc "t0", cexDoc "t1", cexDoc "t2", cexDoc "t3", cexDoc "t4",
   cexDoc "t5", cexDoc "t6", cexDoc "t7", cexDoc "t8", cexDoc "t9",
   cexDoc "ten"]

/-- C1 fails as stated: with eleven matching documents, the eleventh is
dropped by `slice(0, 10)` although only exactly 10 (not more than 10) earlier
documents match. -/
theorem c1_counterexample : ¬ c1ClaimStatement cexIndex "aa" := by
  intro h
  obtain ⟨res, heq, hmem, homit, hsub⟩ := h (by decide) (by decide)
  have hcomp : computeResults cexIndex (jsToLower "aa") =
      Except.ok [cexDoc "t0", cexDoc "t1", cexDoc "t2", cexDoc "t3",
        cexDoc "t4", cexDoc "t5", cexDoc "t6", cexDoc "t7", cexDoc "t8",
        cexDoc "t9"] := by decide
  rw [hcomp] at heq
  injection heq with hres
  have h10 := homit ⟨10, by decide⟩ (by decide)
  rw [← hres] at h10
  exact absurd h10 (by decide)

/-- C1 (amended): for a well-formed index and a raw input of normalized
length at least 2, the query operation succeeds and returns exactly the first
at-most-10 documents matching case-insensitively, in index order; a matching
document is omitted only when AT LEAST 10 earlier documents also match. -/
theorem c1_filter_cap_order (I : List SearchDocument) (r : String)
    (hw : ∀ d ∈ I, wellFormed d = true) (hlen : 2 ≤ (jsToLower r).length) :
    ∃ res, computeResults I (jsToLower r) = Except.ok res ∧
      (∀ st, onInput I r st = Except.ok (displayResults res)) ∧
      res = (I.filter (docMatches (jsToLower r))).take 10 ∧
      res.length ≤ 10 ∧
      (∀ d ∈ res, docMatches (jsToLower r) d = true) ∧
      (∀ i : Fin I.length, docMatches (jsToLower r) (I.get i) = true →
        I.get i ∈ res ∨ 10 ≤ countEarlierMatches (jsToLower r) I i) ∧
      res.Sublist I := by
  refine ⟨(I.filter (docMatches (jsToLower r))).take 10,
    computeResults_eq_ok _ _ hw, ?_, rfl, ?_, ?_, ?_, ?_⟩
  · intro st
    simp only [onInput]
    rw [if_neg (by omega : ¬ (jsToLower r).length < 2),
      computeResults_eq_ok _ _ hw]
    rfl
  · simp [List.length_take]
  · intro d hd
    exact (List.mem_filter.mp (List.mem_of_mem_take hd)).2
  · intro i hi
    exact get_mem_take_filter_or (docMatches (jsToLower r)) I 10 i hi
  · exact (List.take_sublist _ _).trans (List.filter_sublist _)

/-- A one-document index used to exercise the theorems on concrete data. -/
def demoIndex : List SearchDocument :=
  [{ title := some "Episode One", text := some "discusses cats",
     url := some "/e1", feed := some "ShowA" }]

/-- Concrete run of the amended C1 theorem: searching "CAT" over `demoIndex`
returns that single document. -/
theorem c1_filter_cap_order_witness :
    computeResults demoIndex (jsToLower "CAT") =
      Except.ok ((demoIndex.filter (docMatches (jsToLower "CAT"))).take 10) := by
  obtain ⟨res, h1, h2, h3, h4⟩ :=
    c1_filter_cap_order demoIndex "CAT" (by decide) (by decide)
  exact h3 ▸ h1

/-! ## C2: behaviour on entries with missing fields -/

/-- An index whose single entry lacks the `title` field. -/
def c2BadIndex : List SearchDocument :=
  [{ title := none, text := some "hello", url := some "/u", feed := some "F" }]

/-- C2 fails as stated: on an entry with a missing `title`, a valid-length
query makes `item.title.toLowerCase()` throw a `TypeError`, so the query/render
path does raise a structural error instead of rendering a blank field. -/
theorem c2_counterexample :
    onInput c2BadIndex "he" { content := [], visible := false } =
      Except.error JsError.typeError := by decide

/-- C2 (amended): the query/render path raises no error provided every entry
has both `title` and `text`; an absent `url` or `feed` does not raise but is
rendered as the literal text `undefined` (not a blank); an entry missing
`title` (or missing `text` with a non-matching title) makes the filter throw a
`TypeError`, as the counterexample shows. -/
theorem c2_total_when_title_text_present (I : List SearchDocument) (r : String)
    (st : UIState) (hw : ∀ d ∈ I, wellFormed d = true) :
    (∃ st', onInput I r st = Except.ok st') ∧
    renderItem { title := some "T", text := some "x", url := none, feed := none } =
      "<a href=\"undefined\">T</a><span class=\"search-feed\">undefined</span>" := by
  refine ⟨?_, rfl⟩
  by_cases hg : (jsToLower r).length < 2
  · exact ⟨{ content := [], visible := false }, by simp [onInput, hg]⟩
  · refine ⟨displayResults ((I.filter (docMatches (jsToLower r))).take 10), ?_⟩
    simp only [onInput]
    rw [if_neg hg, computeResults_eq_ok _ _ hw]
    rfl

/-- Concrete run of the amended C2 theorem on `demoIndex`. -/
theorem c2_total_witness :
    (∃ st', onInput demoIndex "zz" { content := [], visible := false } =
      Except.ok st') ∧
    renderItem { title := some "T", text := some "x", url := none, feed := none } =
      "<a href=\"undefined\">T</a><span class=\"search-feed\">undefined</span>" :=
  c2_total_when_title_text_present demoIndex "zz"
    { content := [], visible := false } (by decide)

/-! ## C3: the minimum-length gate -/

/-- C3: for a raw input whose lowercased form is shorter than 2 characters,
the handler clears and hides the result region and its output does not depend
on the index at all. -/
theorem c3_short_query_clears_and_hides (I : List SearchDocument) (r : String)
    (st : UIState) (h : (jsToLower r).length < 2) :
    onInput I r st = Except.ok { content := [], visible := false } ∧
    (∀ I' st', onInput I' r st' = onInput I r st) := by
  constructor
  · simp [onInput, h]
  · intro I' st'
    simp [onInput, h]

/-- Concrete run of C3: a one-letter input empties and hides the region. -/
theorem c3_short_query_witness :
    onInput demoIndex "A" { content := [RNode.noResults], visible := true } =
      Except.ok { content := [], visible := false } :=
  (c3_short_query_clears_and_hides demoIndex "A"
    { content := [RNode.noResults], visible := true } (by decide)).1

/-! ## C4: queries against the empty index -/

/-- C4: on the empty index (the pre-load state), every raw input of
normalized length at least 2 yields the empty result list, renders the single
no-results placeholder and shows the region; no exception is raised. -/
theorem c4_empty_index_placeholder (r : String) (st : UIState)
    (h : 2 ≤ (jsToLower r).length) :
    computeResults [] (jsToLower r) = Except.ok [] ∧
    onInput [] r st =
      Except.ok { content := [RNode.noResults], visible := true } := by
  refine ⟨rfl, ?_⟩
  simp only [onInput]
  rw [if_neg (by omega : ¬ (jsToLower r).length < 2)]
  rfl

/-- Concrete run of C4 with the query "ab" before any index has loaded. -/
theorem c4_empty_index_witness :
    computeResults [] (jsToLower "ab") = Except.ok [] ∧
    onInput [] "ab" { content := [], visible := false } =
      Except.ok { content := [RNode.noResults], visible := true } :=
  c4_empty_index_placeholder "ab" { content := [], visible := false } (by decide)

/-! ## C5: load failure leaves a logged, empty, crash-free session -/

/-- C5: a failed index load logs the diagnostic message, leaves the in-memory
index empty, and every subsequent query of any length succeeds and renders no
result entry (only nothing or the placeholder), so zero results and no crash. -/
theorem c5_load_failure_degrades :
    (handleLoad LoadOutcome.failure initialPage).2 =
      ["Failed to load search index"] ∧
    (handleLoad LoadOutcome.failure initialPage).1.searchIndex = [] ∧
    (∀ r st, ∃ st',
      onInput (handleLoad LoadOutcome.failure initialPage).1.searchIndex r st =
        Except.ok st' ∧
      ∀ s, RNode.resultItem s ∉ st'.content) := by
  refine ⟨rfl, rfl, ?_⟩
  intro r st
  by_cases hg : (jsToLower r).length < 2
  · refine ⟨{ content := [], visible := false }, by simp [onInput, hg], ?_⟩
    intro s hs
    simp at hs
  · refine ⟨{ content := [RNode.noResults], visible := true }, ?_, ?_⟩
    · simp only [onInput]
      rw [if_neg hg]
      rfl
    · intro s hs
      simp at hs

/-! ## C6: outside interaction hides without clearing -/

/-- C6: a click outside both the input control and the result region hides
the region but leaves its content untouched; a click on the input control or
inside the region changes nothing. -/
theorem c6_outside_click_hides (t : ClickTarget) (st : UIState) :
    (onDocumentClick t st).content = st.content ∧
    (t = ClickTarget.elsewhere →
      onDocumentClick t st = { content := st.content, visible := false }) ∧
    (t ≠ ClickTarget.elsewhere → onDocumentClick t st = st) := by
  cases t <;> simp [onDocumentClick]

/-- Concrete run of C6: an outside click hides a visible region and keeps its
rendered placeholder. -/
theorem c6_outside_click_witness :
    onDocumentClick ClickTarget.elsewhere
        { content := [RNode.noResults], visible := true } =
      { content := [RNode.noResults], visible := false } :=
  (c6_outside_click_hides ClickTarget.elsewhere
    { content := [RNode.noResults], visible := true }).2.1 rfl

/-! ## C7: determinism and idempotence of the input handler -/

/-- C7: the input handler's output does not depend on the prior region state,
so repeating the same input over an unchanged index reproduces the very same
region state and result rendering. -/
theorem c7_query_idempotent (I : List SearchDocument) (r : String)
    (st st1 : UIState) (h : onInput I r st = Except.ok st1) :
    onInput I r st1 = Except.ok st1 ∧
    (∀ s s', onInput I r s = onInput I r s') := by
  have hind : ∀ s s' : UIState, onInput I r s = onInput I r s' := by
    intro s s'
    rfl
  exact ⟨(hind st1 st).trans h, hind⟩

/-- Concrete run of C7: re-entering "cat" over `demoIndex` reproduces the
state the first invocation produced. -/
theorem c7_query_idempotent_witness :
    onInput demoIndex "cat" (displayResults demoIndex) =
      Except.ok (displayResults demoIndex) :=
  (c7_query_idempotent demoIndex "cat" { content := [], visible := false }
    (displayResults demoIndex) (by decide)).1

/-! ## C8: the index is never mutated by the handlers -/

/-- C8: neither the input handler nor the click handler changes the loaded
index sequence in any way. -/
theorem c8_index_immutable (r : String) (t : ClickTarget) (ps ps' : PageState)
    (h : inputEvent r ps = Except.ok ps') :
    ps'.searchIndex = ps.searchIndex ∧
    (clickEvent t ps).searchIndex = ps.searchIndex := by
  refine ⟨?_, rfl⟩
  unfold inputEvent at h
  cases ho : onInput ps.searchIndex r ps.region with
  | ok stNew =>
    rw [ho] at h
    injection h with h'
    rw [← h']
  | error e =>
    rw [ho] at h
    exact Except.noConfusion h

/-- Concrete run of C8: a query and an outside click both leave `demoIndex`
in place. -/
theorem c8_index_immutable_witness :
    (PageState.mk demoIndex (displayResults demoIndex)).searchIndex =
      (PageState.mk demoIndex { content := [], visible := false }).searchIndex ∧
    (clickEvent ClickTarget.elsewhere
        (PageState.mk demoIndex { content := [], visible := false })).searchIndex =
      (PageState.mk demoIndex { content := [], visible := false }).searchIndex :=
  c8_index_immutable "cat" ClickTarget.elsewhere
    (PageState.mk demoIndex { content := [], visible := false })
    (PageState.mk demoIndex (displayResults demoIndex)) (by decide)

/-! ## C9: normalization is lowercasing and nothing else -/

/-- A document whose text contains the letter a preceded by a space. -/
def spaceDoc1 : SearchDocument :=
  { title := some "T1", text := some "x ay", url := some "/1", feed := some "F" }

/-- A document whose text contains the letter a with no space before it. -/
def spaceDoc2 : SearchDocument :=
  { title := some "T2", text := some "xay", url := some "/2", feed := some "F" }

/-- Two documents that differ only in whether a space precedes the letter a
in their text. -/
def spaceIndex : List SearchDocument :=
  [spaceDoc1, spaceDoc2]

/-- C9: the handler depends on the raw input only through its lowercasing (no
trimming or tokenization); the input " A" (space then letter) normalizes to
" a" of length 2, passes the gate, and matches with the leading space
included, so only the document containing "x ay" is returned. -/
theorem c9_lowercase_only (I : List SearchDocument) (r r' : String)
    (st : UIState) (h : jsToLower r = jsToLower r') :
    onInput I r st = onInput I r' st ∧
    jsToLower " A" = " a" ∧
    (jsToLower " A").length = 2 ∧
    computeResults spaceIndex (jsToLower " A") = Except.ok [spaceDoc1] := by
  refine ⟨?_, by decide, by decide, by decide⟩
  simp only [onInput, h]

/-- Concrete run of C9: the inputs "AbC" and "abc" produce the same output. -/
theorem c9_lowercase_only_witness :
    onInput demoIndex "AbC" { content := [], visible := false } =
      onInput demoIndex "abc" { content := [], visible := false } :=
  (c9_lowercase_only demoIndex "AbC" "abc"
    { content := [], visible := false } (by decide)).1

/-! ## C10: rendered markup is verbatim, unescaped interpolation -/

/-- C10: each rendered entry is the exact unescaped interpolation of `url`,
`title` and `feed` into the anchor/span template; markup inside field values
is inserted verbatim, and an absent `url` or `feed` appears as the literal
text `undefined`, not as a blank. -/
theorem c10_render_verbatim :
    (∀ u t f x, renderItem (SearchDocument.mk (some t) x (some u) (some f)) =
      "<a href=\"" ++ u ++ "\">" ++ t ++
        "</a><span class=\"search-feed\">" ++ f ++ "</span>") ∧
    renderItem (SearchDocument.mk (some "<b>bold</b>") (some "body")
        (some "x\" onclick=\"y()") (some "<i>F</i>")) =
      "<a href=\"x\" onclick=\"y()\"><b>bold</b></a><span class=\"search-feed\"><i>F</i></span>" ∧
    renderItem { title := some "T", text := some "x", url := none, feed := none } =
      "<a href=\"undefined\">T</a><span class=\"search-feed\">undefined</span>" := by
  refine ⟨?_, rfl, rfl⟩
  intro u t f x
  rfl
